import Mathlib

/-!
Verification of the Mumbai flood-assessment raster pipeline.

Shallow embedding of the core processing logic:
  * `processor.py` — the batch clip/normalize/render script, and
  * `src/data/preprocessing.py` — the shared `clip_raster_with_boundary` helper.

Pixels are modelled by `Pix`: a finite rational sample, the IEEE NaN value,
or an IEEE infinity.  NumPy elementwise comparison semantics (`==` is false
on NaN, `np.isinf`, `np.isnan`) are embedded explicitly.
-/

/-- A raster sample as the pipeline sees it: a finite numeric value,
IEEE NaN, or a signed IEEE infinity. -/
inductive Pix where
  | fin (v : ℚ)
  | nan
  | posInf
  | negInf
deriving DecidableEq, Repr

/-- NumPy `==` on two samples: false whenever either side is NaN,
true on equal finite values and on same-signed infinities. -/
def Pix.floatEq : Pix → Pix → Bool
  | .fin a, .fin b => a == b
  | .posInf, .posInf => true
  | .negInf, .negInf => true
  | _, _ => false

/-- NumPy `np.isnan`. -/
def Pix.isNan : Pix → Bool
  | .nan => true
  | _ => false

/-- NumPy `np.isinf`. -/
def Pix.isInf : Pix → Bool
  | .posInf => true
  | .negInf => true
  | _ => false

/-- A sample is finite iff it is neither NaN nor an infinity. -/
def Pix.isFinite : Pix → Bool
  | .fin _ => true
  | _ => false

/-- Elementwise action of `np.where(out_image == src.nodata, np.nan, out_image)`. -/
def fwdNodataElem (nd p : Pix) : Pix :=
  if p.floatEq nd then Pix.nan else p

/-- Elementwise action of `np.where(np.isinf(out_image), np.nan, out_image)`. -/
def fwdInfElem (p : Pix) : Pix :=
  if p.isInf then Pix.nan else p

/-- Elementwise action of `np.where(np.isnan(out_image), src.nodata, out_image)`. -/
def revElem (nd p : Pix) : Pix :=
  if p.isNan then nd else p

/-- Forward normalization pass of `processor.py` (lines 66–71): nodata-equal
pixels to NaN when a nodata value is declared, then infinities to NaN. -/
def normalizeForward (nodata : Option Pix) (a : List Pix) : List Pix :=
  (match nodata with
    | some nd => a.map (fwdNodataElem nd)
    | none => a).map fwdInfElem

/-- Reverse normalization pass of `processor.py` (lines 82–84): NaN pixels
back to the nodata value, guarded by `if src.nodata is not None`. -/
def normalizeReverse (nodata : Option Pix) (a : List Pix) : List Pix :=
  match nodata with
  | some nd => a.map (revElem nd)
  | none => a

/-- An affine transform (six coefficients, as in rasterio). -/
structure AffineT where
  a : ℚ
  b : ℚ
  c : ℚ
  d : ℚ
  e : ℚ
  f : ℚ
deriving DecidableEq, Repr

/-- The rasterio `src.meta` dictionary: driver, dtype, nodata, width, height,
band count, CRS, transform. -/
structure RasterMeta where
  driver : String
  dtype : String
  nodata : Option Pix
  width : Nat
  height : Nat
  count : Nat
  crs : String
  transform : AffineT
deriving DecidableEq, Repr

/-- The result of `rasterio.mask.mask(src, shapes, crop=True)`: a clipped
3-D array (bands × rows × cols, band 0 kept explicitly) and its transform. -/
structure ClipData where
  shape0 : Nat
  shape1 : Nat
  shape2 : Nat
  transform : AffineT
  band0 : List Pix
deriving DecidableEq, Repr

/-- Metadata update of `processor.py` lines 74–78: `out_meta.update` with the
clipped height, width and transform only. -/
def processorMetaUpdate (m : RasterMeta) (c : ClipData) : RasterMeta :=
  { m with height := c.shape1, width := c.shape2, transform := c.transform }

/-- Metadata update of `src/data/preprocessing.py` lines 80–85:
`out_meta.update` forcing `"driver": "GTiff"` alongside the clipped height,
width and transform. -/
def clipBoundaryMetaUpdate (m : RasterMeta) (c : ClipData) : RasterMeta :=
  { m with driver := "GTiff", height := c.shape1, width := c.shape2,
           transform := c.transform }

/-- Whether the second character list occurs at the head of the first. -/
def listBeginsWith : List Char → List Char → Bool
  | _, [] => true
  | [], _ :: _ => false
  | a :: as, b :: bs => a == b && listBeginsWith as bs

/-- Whether the second character list occurs anywhere inside the first
(Python's `needle in hay`). -/
def listHasSub : List Char → List Char → Bool
  | [], needle => needle.isEmpty
  | c :: t, needle => listBeginsWith (c :: t) needle || listHasSub t needle

/-- Python's substring containment test `needle in hay` on strings. -/
def strHasSub (hay needle : String) : Bool :=
  listHasSub hay.toList needle.toList

/-- The characters of Python's `str.lower()` of a string (ASCII lowering,
character by character). -/
def strLowerChars (s : String) : List Char :=
  s.toList.map Char.toLower

/-- The precipitation-indicating needle "prec". -/
def precNeedle : List Char :=
  "prec".toList

/-- The elevation-indicating needle "elev". -/
def elevNeedle : List Char :=
  "elev".toList

/-- Colormap/label selection of `processor.py` lines 96–105: substring tests
on the lowercased relative path, "prec" first, then "elev", else default. -/
def selectCmapLabel (relPath : String) : String × String :=
  if listHasSub (strLowerChars relPath) precNeedle then
    ("Blues", "Precipitation (mm)")
  else if listHasSub (strLowerChars relPath) elevNeedle then
    ("terrain", "Elevation (m)")
  else ("viridis", "Value")

/-- The valid samples of a band: `np.ma.masked_invalid(band).compressed()`,
i.e. the finite entries in order. -/
def validData (band : List Pix) : List ℚ :=
  band.filterMap (fun p =>
    match p with
    | .fin v => some v
    | _ => none)

/-- Value of NumPy linear percentile interpolation on an ascending list `s`
at fractional index `h`. -/
def interpAt (s : List ℚ) (h : ℚ) : ℚ :=
  s.getD (⌊h⌋).toNat 0 +
    (h - ((⌊h⌋).toNat : ℚ)) *
      (s.getD (min ((⌊h⌋).toNat + 1) (s.length - 1)) 0 -
        s.getD (⌊h⌋).toNat 0)

/-- NumPy `np.percentile(l, q)` with the default linear interpolation:
sort the samples and interpolate at index `q/100 * (n - 1)`. -/
def npPercentile (l : List ℚ) (q : ℚ) : ℚ :=
  interpAt (List.insertionSort (· ≤ ·) l)
    (q / 100 * (((List.insertionSort (· ≤ ·) l).length - 1 : Nat) : ℚ))

/-- Lower display bound of `processor.py` line 111: 2nd percentile of the
valid samples. -/
def rendererVmin (band : List Pix) : ℚ :=
  npPercentile (validData band) 2

/-- Upper display bound of `processor.py` line 112: 98th percentile of the
valid samples. -/
def rendererVmax (band : List Pix) : ℚ :=
  npPercentile (validData band) 98

/-- Outcome of the plotting block of `processor.py` lines 88–127 (up to the
`savefig` side effect): either a rendered image with its colormap, label and
percentile clip bounds, or one of the two skip messages. -/
inductive RenderResult where
  | plotted (cmap label : String) (vmin vmax : ℚ)
  | noValidData (log : String)
  | allMasked (log : String)
deriving DecidableEq, Repr

/-- The check `np.all(np.ma.getmask(np.ma.masked_invalid(band)))` at
`processor.py` line 93.  NumPy shrinks a mask with no True entry — in
particular the mask of an empty or an all-valid band — to `nomask`
(a scalar False), on which `np.all` is False; so the check is true iff the
band has at least one invalid entry and every entry is invalid. -/
def allMaskedCheck (band : List Pix) : Bool :=
  (band.any fun p => !p.isFinite) && (band.all fun p => !p.isFinite)

/-- The Robust Renderer of `processor.py` lines 88–127: mask invalid values,
skip when everything is masked, otherwise select colormap/label and compute
2nd/98th percentile bounds (with an inner guard on empty valid data). -/
def renderBand (relPath name : String) (band : List Pix) : RenderResult :=
  if !(allMaskedCheck band) then
    let cl := selectCmapLabel relPath
    if 0 < (validData band).length then
      .plotted cl.1 cl.2 (rendererVmin band) (rendererVmax band)
    else
      .noValidData ("  No valid data in " ++ name ++ " to plot")
  else
    .allMasked ("  All data masked in " ++ name ++ " - skipping plot")

/-- A Python exception as the script distinguishes them: a `ValueError`
carrying its message, or any other exception carrying its message. -/
inductive PyErr where
  | valueError (msg : String)
  | otherExc (msg : String)
deriving DecidableEq, Repr

/-- The message text of an exception (Python's `str(e)`). -/
def PyErr.msg : PyErr → String
  | .valueError m => m
  | .otherExc m => m

/-- Modelled from the spec: the Raster Clipper (`rasterio.mask.mask`) is not
part of this repository; per the spec's no-overlap edge case it fails on a
disjoint AOI with a `ValueError` whose message the handler at
`processor.py` line 136 matches by substring. -/
def noOverlapMsg : String := "Input shapes do not overlap raster"

deriving instance DecidableEq for Except

/-- Behaviour of one opened dataset during the loop body: the result of each
effectful step when executed (`Except.error` means the call raises), plus
the dataset's nodata value and metadata. -/
structure DatasetModel where
  reprojectResult : Except PyErr Unit
  clipResult : Except PyErr ClipData
  nodata : Option Pix
  meta : RasterMeta
  writeResult : Except PyErr Unit
  saveFigResult : Except PyErr Unit
deriving DecidableEq, Repr

/-- One discovered input file: its paths and the behaviour of the effectful
steps taken before the dataset is open. -/
structure FileModel where
  tifPath : String
  relPath : String
  name : String
  outPath : String
  plotPath : String
  relativeResult : Except PyErr Unit
  mkdirResult : Except PyErr Unit
  openResult : Except PyErr DatasetModel
deriving DecidableEq, Repr

/-- Per-file outcome of `processor.py`'s loop body. -/
inductive FileOutcome where
  | written (outPath : String)
  | skippedNoOverlap
  | innerError (msg : String)
  | outerError (msg : String)
deriving DecidableEq, Repr

/-- The `except ValueError` handler at `processor.py` lines 135–139:
a message containing the no-overlap text logs a warning and skips; any
other ValueError logs an error line with the file's basename. -/
def innerHandler (name msg : String) : FileOutcome × List String :=
  if strHasSub msg noOverlapMsg then
    (.skippedNoOverlap,
      ["  Warning: Mumbai region does not overlap with " ++ name])
  else
    (.innerError msg, ["  Error processing " ++ name ++ ": " ++ msg])

/-- The plotting block of `processor.py` lines 87–131: best-effort; a
`savefig` failure is caught and logged, never affecting the outcome. -/
def plotStep (f : FileModel) (ds : DatasetModel) (img : List Pix) :
    List String :=
  match renderBand f.relPath f.name img with
  | .plotted _ _ _ _ =>
    match ds.saveFigResult with
    | .ok _ => ["  Plot saved to " ++ f.plotPath]
    | .error e =>
      ["  Warning: Could not create plot for " ++ f.name ++ ": " ++ e.msg]
  | .noValidData m => [m]
  | .allMasked m => [m]

/-- The loop body of `processor.py` lines 46–142 for one file: outer
`try/except Exception` (logging with the full path), inner
`try/except ValueError` around clip/normalize/write/plot, normalization
passes, metadata sync, write, then the best-effort plot. -/
def processFile (f : FileModel) : FileOutcome × List String :=
  match f.relativeResult with
  | .error e => (.outerError e.msg,
      ["  Error with file " ++ f.tifPath ++ ": " ++ e.msg])
  | .ok _ =>
    let l0 := ["Processing: " ++ f.relPath]
    match f.mkdirResult with
    | .error e => (.outerError e.msg,
        l0 ++ ["  Error with file " ++ f.tifPath ++ ": " ++ e.msg])
    | .ok _ =>
      match f.openResult with
      | .error e => (.outerError e.msg,
          l0 ++ ["  Error with file " ++ f.tifPath ++ ": " ++ e.msg])
      | .ok ds =>
        match ds.reprojectResult with
        | .error e => (.outerError e.msg,
            l0 ++ ["  Error with file " ++ f.tifPath ++ ": " ++ e.msg])
        | .ok _ =>
          match ds.clipResult with
          | .error (.valueError m) =>
            ((innerHandler f.name m).1, l0 ++ (innerHandler f.name m).2)
          | .error (.otherExc m) =>
            (.outerError m,
              l0 ++ ["  Error with file " ++ f.tifPath ++ ": " ++ m])
          | .ok clip =>
            let img := normalizeReverse ds.nodata
              (normalizeForward ds.nodata clip.band0)
            match ds.writeResult with
            | .error (.valueError m) =>
              ((innerHandler f.name m).1, l0 ++ (innerHandler f.name m).2)
            | .error (.otherExc m) =>
              (.outerError m,
                l0 ++ ["  Error with file " ++ f.tifPath ++ ": " ++ m])
            | .ok _ =>
              (.written f.outPath,
                l0 ++ plotStep f ds img ++
                  ["  Processed and saved: " ++ f.outPath])

/-- The batch loop: process every discovered file in order, one result per
file; no outcome can abort the traversal. -/
def processBatch (files : List FileModel) :
    List (FileModel × FileOutcome × List String) :=
  files.map (fun f => (f, processFile f))

/-- The raster outputs written by a batch. -/
def writtenOutputs (files : List FileModel) : List String :=
  files.filterMap (fun f =>
    match (processFile f).1 with
    | .written p => some p
    | _ => none)

/-- A sample dataset whose every step succeeds. -/
def okDataset : DatasetModel where
  reprojectResult := .ok ()
  clipResult := .ok
    { shape0 := 1, shape1 := 2, shape2 := 2, transform := ⟨1, 0, 0, 0, 1, 0⟩,
      band0 := [Pix.fin 1, Pix.fin 2, Pix.fin 3, Pix.fin 4] }
  nodata := none
  meta := { driver := "GTiff", dtype := "float32", nodata := none,
            width := 10, height := 10, count := 1, crs := "EPSG:4326",
            transform := ⟨1, 0, 0, 0, 1, 0⟩ }
  writeResult := .ok ()
  saveFigResult := .ok ()

/-- A sample file that processes successfully end to end. -/
def okFile : FileModel where
  tifPath := "data/raw/rainfall/sub/ok.tif"
  relPath := "sub/ok.tif"
  name := "ok.tif"
  outPath := "data/processed/rainfall/sub/ok.tif"
  plotPath := "data/processed/rainfall/sub/ok_plot.png"
  relativeResult := .ok ()
  mkdirResult := .ok ()
  openResult := .ok okDataset

/-- A sample file whose clip step raises a generic `ValueError "boom"`. -/
def badClipFile : FileModel :=
  { okFile with
      tifPath := "data/raw/rainfall/sub/a.tif"
      relPath := "sub/a.tif"
      name := "a.tif"
      openResult := .ok
        { okDataset with clipResult := .error (.valueError "boom") } }

/-- A sample file whose clip step raises the no-overlap `ValueError`. -/
def noOverlapFile : FileModel :=
  { okFile with
      openResult := .ok
        { okDataset with clipResult := .error (.valueError noOverlapMsg) } }

/-- Behaviour of the effectful steps inside `clip_raster_with_boundary`
(`src/data/preprocessing.py` lines 64–97). -/
structure ClipBoundaryEnv where
  readBoundary : Except PyErr Unit
  openRaster : Except PyErr Unit
  toCrsResult : Except PyErr Unit
  maskResult : Except PyErr ClipData
  meta : RasterMeta
  makedirsResult : Except PyErr Unit
  writeResult : Except PyErr Unit
deriving DecidableEq, Repr

/-- The body of the `try` block of `clip_raster_with_boundary`: read the
boundary, open the raster, reproject, mask, update metadata (forcing GTiff),
create the output directory, write the clipped raster. -/
def clipBoundaryPipeline (env : ClipBoundaryEnv) : Except PyErr RasterMeta := do
  let _ ← env.readBoundary
  let _ ← env.openRaster
  let _ ← env.toCrsResult
  let clip ← env.maskResult
  let outMeta := clipBoundaryMetaUpdate env.meta clip
  let _ ← env.makedirsResult
  let _ ← env.writeResult
  pure outMeta

/-- `clip_raster_with_boundary` of `src/data/preprocessing.py`: the whole
body wrapped in `try/except Exception`, returning `True` on success and
`False` on any internal exception. -/
def clip_raster_with_boundary (env : ClipBoundaryEnv) : Bool :=
  match clipBoundaryPipeline env with
  | .ok _ => true
  | .error _ => false

theorem Pix.eq_of_floatEq {p nd : Pix} (h : p.floatEq nd = true) : p = nd := by
  cases p <;> cases nd <;> simp_all [Pix.floatEq]

theorem roundtrip_elem (nd p : Pix)
    (h : p.isFinite = true ∨ p.floatEq nd = true) :
    revElem nd (fwdInfElem (fwdNodataElem nd p)) = p := by
  by_cases hq : p.floatEq nd = true
  · have hpnd : p = nd := Pix.eq_of_floatEq hq
    subst hpnd
    simp [fwdNodataElem, fwdInfElem, revElem, hq, Pix.isInf, Pix.isNan]
  · have hfin : p.isFinite = true := by tauto
    cases p <;>
      simp_all [fwdNodataElem, fwdInfElem, revElem, Pix.isFinite, Pix.isInf,
        Pix.isNan]

/-- Claim C1 counterexample: a single positive-infinity pixel with declared
nodata 5 is not restored by the forward-then-reverse round trip; it comes
back as the nodata value 5 instead. -/
theorem roundtrip_fails_on_infinite_pixel :
    normalizeReverse (some (Pix.fin 5))
        (normalizeForward (some (Pix.fin 5)) [Pix.posInf]) =
      [Pix.fin 5] ∧ [Pix.fin 5] ≠ [Pix.posInf] := by
  decide

/-- Claim C1 (amended): for an array with a declared nodata value in which
every pixel is finite or IEEE-equal to the nodata value, the forward pass
(nodata-equal and non-finite pixels to NaN) followed by the reverse pass
(NaN pixels to nodata) restores the original array exactly. -/
theorem normalize_roundtrip (nd : Pix) (a : List Pix)
    (h : ∀ p ∈ a, p.isFinite = true ∨ p.floatEq nd = true) :
    normalizeReverse (some nd) (normalizeForward (some nd) a) = a := by
  simp only [normalizeForward, normalizeReverse, List.map_map]
  revert h
  induction a with
  | nil => intro _; rfl
  | cons p t ih =>
    intro h
    simp only [List.map_cons, Function.comp_apply]
    rw [roundtrip_elem nd p (h p (by simp)), ih (fun q hq => h q (by simp [hq]))]

/-- Claim C1 witness: concrete round trip on `[7, nodata, 3]` with nodata 9. -/
theorem normalize_roundtrip_witness :
    (∀ p ∈ [Pix.fin 7, Pix.fin 9, Pix.fin 3],
        p.isFinite = true ∨ p.floatEq (Pix.fin 9) = true) ∧
      normalizeReverse (some (Pix.fin 9))
          (normalizeForward (some (Pix.fin 9)) [Pix.fin 7, Pix.fin 9, Pix.fin 3]) =
        [Pix.fin 7, Pix.fin 9, Pix.fin 3] :=
  ⟨by decide, normalize_roundtrip (Pix.fin 9) _ (by decide)⟩

/-- Claim C5: with no declared nodata value, the guarded reverse pass is the
identity — sentinel (NaN) pixels, and all others, are left unchanged. -/
theorem reverse_none_identity (a : List Pix) : normalizeReverse none a = a :=
  rfl

/-- Claim C3 counterexample: `clip_raster_with_boundary` does not inherit the
driver field — a source dataset whose driver is "HFA" comes out with driver
"GTiff" after the metadata update. -/
theorem clip_boundary_meta_changes_driver :
    (clipBoundaryMetaUpdate
        { driver := "HFA", dtype := "float32", nodata := none, width := 10,
          height := 10, count := 1, crs := "EPSG:4326",
          transform := ⟨1, 0, 0, 0, 1, 0⟩ }
        { shape0 := 1, shape1 := 4, shape2 := 5,
          transform := ⟨1, 0, 0, 0, 1, 0⟩, band0 := [] }).driver = "GTiff" ∧
      "GTiff" ≠ "HFA" := by
  constructor
  · rfl
  · decide

/-- Claim C3 (amended): both metadata updates set height/width to the clipped
array's spatial dimensions and transform to the clipped transform, and
inherit dtype, band count, CRS and nodata unchanged; the processor's update
also inherits the driver, while `clip_raster_with_boundary` forces the
driver to "GTiff". -/
theorem meta_update_sync (m : RasterMeta) (c : ClipData) :
    (processorMetaUpdate m c).height = c.shape1 ∧
      (processorMetaUpdate m c).width = c.shape2 ∧
      (processorMetaUpdate m c).transform = c.transform ∧
      (processorMetaUpdate m c).driver = m.driver ∧
      (processorMetaUpdate m c).dtype = m.dtype ∧
      (processorMetaUpdate m c).count = m.count ∧
      (processorMetaUpdate m c).crs = m.crs ∧
      (processorMetaUpdate m c).nodata = m.nodata ∧
      (clipBoundaryMetaUpdate m c).height = c.shape1 ∧
      (clipBoundaryMetaUpdate m c).width = c.shape2 ∧
      (clipBoundaryMetaUpdate m c).transform = c.transform ∧
      (clipBoundaryMetaUpdate m c).driver = "GTiff" ∧
      (clipBoundaryMetaUpdate m c).dtype = m.dtype ∧
      (clipBoundaryMetaUpdate m c).count = m.count ∧
      (clipBoundaryMetaUpdate m c).crs = m.crs ∧
      (clipBoundaryMetaUpdate m c).nodata = m.nodata :=
  ⟨rfl, rfl, rfl, rfl, rfl, rfl, rfl, rfl, rfl, rfl, rfl, rfl, rfl, rfl, rfl,
    rfl⟩

/-- Claim C8 counterexample: the filename "elev_prec.tif" contains the
elevation-indicating substring "elev", yet the selection yields the
precipitation pair, because the "prec" test runs first. -/
theorem cmap_selection_prec_shadows_elev :
    listHasSub (strLowerChars "elev_prec.tif") elevNeedle = true ∧
      selectCmapLabel "elev_prec.tif" = ("Blues", "Precipitation (mm)") ∧
      ("Blues", "Precipitation (mm)") ≠ ("terrain", "Elevation (m)") := by
  decide

/-- Claim C8 (amended): selection is a pure, deterministic function of the
filename: if the lowercased name contains "prec" it yields the precipitation
pair; otherwise if it contains "elev", the elevation pair; otherwise the
default pair; and equal filenames always yield equal selections. -/
theorem cmap_selection_pure (p : String) :
    (listHasSub (strLowerChars p) precNeedle = true →
        selectCmapLabel p = ("Blues", "Precipitation (mm)")) ∧
      (listHasSub (strLowerChars p) precNeedle = false →
        listHasSub (strLowerChars p) elevNeedle = true →
        selectCmapLabel p = ("terrain", "Elevation (m)")) ∧
      (listHasSub (strLowerChars p) precNeedle = false →
        listHasSub (strLowerChars p) elevNeedle = false →
        selectCmapLabel p = ("viridis", "Value")) ∧
      selectCmapLabel p = selectCmapLabel p := by
  refine ⟨fun h1 => ?_, fun h1 h2 => ?_, fun h1 h2 => ?_, rfl⟩
  · simp [selectCmapLabel, h1]
  · simp [selectCmapLabel, h1, h2]
  · simp [selectCmapLabel, h1, h2]

/-- Claim C8 witness: the three selection branches at concrete filenames. -/
theorem cmap_selection_pure_witness :
    selectCmapLabel "a_prec.tif" = ("Blues", "Precipitation (mm)") ∧
      selectCmapLabel "an_elev.tif" = ("terrain", "Elevation (m)") ∧
      selectCmapLabel "census.tif" = ("viridis", "Value") :=
  ⟨(cmap_selection_pure "a_prec.tif").1 (by decide),
    (cmap_selection_pure "an_elev.tif").2.1 (by decide) (by decide),
    (cmap_selection_pure "census.tif").2.2.1 (by decide) (by decide)⟩

theorem getD_mono_of_sorted {s : List ℚ} (hs : s.Sorted (· ≤ ·)) {i j : Nat}
    (hij : i ≤ j) (hj : j < s.length) : s.getD i 0 ≤ s.getD j 0 := by
  have hi : i < s.length := lt_of_le_of_lt hij hj
  rw [List.getD_eq_getElem s 0 hi, List.getD_eq_getElem s 0 hj]
  have hfle : (⟨i, hi⟩ : Fin s.length) ≤ ⟨j, hj⟩ := hij
  simpa using hs.rel_get_of_le hfle

theorem floor_toNat_le_of_le {h : ℚ} {m : Nat} (hle : h ≤ (m : ℚ)) :
    (⌊h⌋).toNat ≤ m :=
  Int.toNat_le.mpr ((Int.floor_le_floor hle).trans_eq (Int.floor_natCast m))

theorem interpAt_bounds {s : List ℚ} (hs : s.Sorted (· ≤ ·)) (hne : s ≠ [])
    {h : ℚ} (h0 : 0 ≤ h) (hub : h ≤ ((s.length - 1 : Nat) : ℚ)) :
    s.getD (⌊h⌋).toNat 0 ≤ interpAt s h ∧
      interpAt s h ≤ s.getD (min ((⌊h⌋).toNat + 1) (s.length - 1)) 0 := by
  have hn : 0 < s.length := List.length_pos.mpr hne
  have hfl0 : (0 : ℤ) ≤ ⌊h⌋ := Int.floor_nonneg.mpr h0
  have hcast : (((⌊h⌋).toNat : ℕ) : ℚ) = ((⌊h⌋ : ℤ) : ℚ) := by
    exact_mod_cast congrArg (fun z : ℤ => (z : ℚ)) (Int.toNat_of_nonneg hfl0)
  have hile : (((⌊h⌋).toNat : ℕ) : ℚ) ≤ h := by
    rw [hcast]
    exact Int.floor_le h
  have hilt : h < ((⌊h⌋).toNat : ℚ) + 1 := by
    rw [hcast]
    exact_mod_cast Int.lt_floor_add_one h
  have hin : (⌊h⌋).toNat ≤ s.length - 1 := floor_toNat_le_of_le hub
  have hij : (⌊h⌋).toNat ≤ min ((⌊h⌋).toNat + 1) (s.length - 1) :=
    le_min (Nat.le_succ _) hin
  have hjlt : min ((⌊h⌋).toNat + 1) (s.length - 1) < s.length := by
    have : min ((⌊h⌋).toNat + 1) (s.length - 1) ≤ s.length - 1 :=
      min_le_right _ _
    omega
  have hx : s.getD (⌊h⌋).toNat 0 ≤
      s.getD (min ((⌊h⌋).toNat + 1) (s.length - 1)) 0 :=
    getD_mono_of_sorted hs hij hjlt
  unfold interpAt
  constructor
  · nlinarith [mul_nonneg (sub_nonneg.mpr hile) (sub_nonneg.mpr hx)]
  · nlinarith [mul_nonneg (by linarith : (0 : ℚ) ≤ 1 - (h - ((⌊h⌋).toNat : ℚ)))
      (sub_nonneg.mpr hx)]

theorem interpAt_mono {s : List ℚ} (hs : s.Sorted (· ≤ ·)) (hne : s ≠ [])
    {h1 h2 : ℚ} (h10 : 0 ≤ h1) (h12 : h1 ≤ h2)
    (h2ub : h2 ≤ ((s.length - 1 : Nat) : ℚ)) :
    interpAt s h1 ≤ interpAt s h2 := by
  have h20 : 0 ≤ h2 := le_trans h10 h12
  have h1ub : h1 ≤ ((s.length - 1 : Nat) : ℚ) := le_trans h12 h2ub
  have hn : 0 < s.length := List.length_pos.mpr hne
  have hb1 := interpAt_bounds hs hne h10 h1ub
  have hb2 := interpAt_bounds hs hne h20 h2ub
  have hi12 : (⌊h1⌋).toNat ≤ (⌊h2⌋).toNat :=
    Int.toNat_le_toNat (Int.floor_le_floor h12)
  rcases Nat.lt_or_ge (⌊h1⌋).toNat (⌊h2⌋).toNat with hlt | hge
  · have hi2ub : (⌊h2⌋).toNat ≤ s.length - 1 := floor_toNat_le_of_le h2ub
    have hstep : min ((⌊h1⌋).toNat + 1) (s.length - 1) ≤ (⌊h2⌋).toNat :=
      le_trans (min_le_left _ _) hlt
    have hmid : s.getD (min ((⌊h1⌋).toNat + 1) (s.length - 1)) 0 ≤
        s.getD (⌊h2⌋).toNat 0 :=
      getD_mono_of_sorted hs hstep (by omega)
    linarith [hb1.2, hb2.1]
  · have heq : (⌊h1⌋).toNat = (⌊h2⌋).toNat := le_antisymm hi12 hge
    have hfl0 : (0 : ℤ) ≤ ⌊h1⌋ := Int.floor_nonneg.mpr h10
    have hin : (⌊h1⌋).toNat ≤ s.length - 1 := floor_toNat_le_of_le h1ub
    have hij : (⌊h1⌋).toNat ≤ min ((⌊h1⌋).toNat + 1) (s.length - 1) :=
      le_min (Nat.le_succ _) hin
    have hjlt : min ((⌊h1⌋).toNat + 1) (s.length - 1) < s.length := by
      have : min ((⌊h1⌋).toNat + 1) (s.length - 1) ≤ s.length - 1 :=
        min_le_right _ _
      omega
    have hx : s.getD (⌊h1⌋).toNat 0 ≤
        s.getD (min ((⌊h1⌋).toNat + 1) (s.length - 1)) 0 :=
      getD_mono_of_sorted hs hij hjlt
    unfold interpAt
    rw [← heq]
    nlinarith [mul_nonneg (sub_nonneg.mpr h12) (sub_nonneg.mpr hx)]

theorem npPercentile_mono (l : List ℚ) (hl : l ≠ []) {q1 q2 : ℚ}
    (hq0 : 0 ≤ q1) (hq12 : q1 ≤ q2) (hq100 : q2 ≤ 100) :
    npPercentile l q1 ≤ npPercentile l q2 := by
  unfold npPercentile
  have hsorted : (List.insertionSort (· ≤ ·) l).Sorted (· ≤ ·) :=
    List.sorted_insertionSort (· ≤ ·) l
  have hne : List.insertionSort (· ≤ ·) l ≠ [] := by
    intro hcon
    apply hl
    have hperm := List.perm_insertionSort (· ≤ ·) l
    rw [hcon] at hperm
    exact hperm.symm.eq_nil
  have hm0 : (0 : ℚ) ≤ (((List.insertionSort (· ≤ ·) l).length - 1 : Nat) : ℚ) :=
    Nat.cast_nonneg _
  refine interpAt_mono hsorted hne ?_ ?_ ?_
  · exact mul_nonneg (div_nonneg hq0 (by norm_num)) hm0
  · exact mul_le_mul_of_nonneg_right (by linarith : q1 / 100 ≤ q2 / 100) hm0
  · calc q2 / 100 * (((List.insertionSort (· ≤ ·) l).length - 1 : Nat) : ℚ)
        ≤ 1 * (((List.insertionSort (· ≤ ·) l).length - 1 : Nat) : ℚ) :=
          mul_le_mul_of_nonneg_right (by linarith) hm0
      _ = _ := one_mul _

/-- Claim C7: for a band with at least two distinct valid samples, the
renderer's lower clip bound (2nd percentile of the valid samples) does not
exceed its upper clip bound (98th percentile). -/
theorem percentile_bounds_ordered (band : List Pix)
    (h : ∃ a ∈ validData band, ∃ b ∈ validData band, a ≠ b) :
    rendererVmin band ≤ rendererVmax band := by
  obtain ⟨a, ha, -⟩ := h
  exact npPercentile_mono _ (List.ne_nil_of_mem ha) (by norm_num)
    (by norm_num) (by norm_num)

/-- Claim C7 witness: concrete bound ordering on the band `[0, 1]`. -/
theorem percentile_bounds_ordered_witness :
    (∃ a ∈ validData [Pix.fin 0, Pix.fin 1],
        ∃ b ∈ validData [Pix.fin 0, Pix.fin 1], a ≠ b) ∧
      rendererVmin [Pix.fin 0, Pix.fin 1] ≤
        rendererVmax [Pix.fin 0, Pix.fin 1] :=
  ⟨by decide, percentile_bounds_ordered [Pix.fin 0, Pix.fin 1] (by decide)⟩

/-- Claim C6 counterexample: on a fully masked band the renderer's report is
the "All data masked … - skipping plot" line, which does not contain the
words "no valid data" (even case-insensitively); the "No valid data" message
belongs to a different branch. -/
theorem all_masked_message_not_no_valid_data :
    renderBand "x.tif" "x.tif" [Pix.nan] =
      RenderResult.allMasked "  All data masked in x.tif - skipping plot" ∧
      listHasSub (strLowerChars "  All data masked in x.tif - skipping plot")
        (strLowerChars "no valid data") = false := by
  decide

/-- Claim C6 (amended): for a band whose pixels are all invalid the renderer
produces no image and raises no error; when the band is non-empty the report
is the all-data-masked skip message "  All data masked in <name> - skipping
plot", while the zero-size band (whose shrunk mask makes the check False)
falls through to the "  No valid data in <name> to plot" report instead. -/
theorem renderer_all_masked (relPath name : String) (band : List Pix)
    (h : (band.all fun p => !p.isFinite) = true) :
    (band ≠ [] →
      renderBand relPath name band =
        RenderResult.allMasked
          ("  All data masked in " ++ name ++ " - skipping plot")) ∧
      (band = [] →
        renderBand relPath name band =
          RenderResult.noValidData
            ("  No valid data in " ++ name ++ " to plot")) := by
  constructor
  · intro hne
    have hany : (band.any fun p => !p.isFinite) = true := by
      cases band with
      | nil => exact absurd rfl hne
      | cons p t =>
        simp only [List.all_cons, Bool.and_eq_true] at h
        simp [List.any_cons, h.1]
    simp [renderBand, allMaskedCheck, hany, h]
  · intro hemp
    subst hemp
    rfl

/-- Claim C6 witness: the amended statement at a concrete non-empty fully
masked band. -/
theorem renderer_all_masked_witness :
    (([Pix.nan, Pix.posInf].all fun p => !p.isFinite) = true) ∧
      renderBand "a.tif" "a.tif" [Pix.nan, Pix.posInf] =
        RenderResult.allMasked
          ("  All data masked in " ++ "a.tif" ++ " - skipping plot") :=
  ⟨by decide, (renderer_all_masked "a.tif" "a.tif" [Pix.nan, Pix.posInf]
    (by decide)).1 (by decide)⟩

theorem validData_pos_of_not_all_masked {band : List Pix}
    (h : (band.all fun p => !p.isFinite) = false) :
    0 < (validData band).length := by
  rw [List.all_eq_false] at h
  obtain ⟨p, hp, hfin⟩ := h
  cases p with
  | fin v =>
    have hv : v ∈ validData band := List.mem_filterMap.mpr ⟨Pix.fin v, hp, rfl⟩
    exact List.length_pos.mpr (List.ne_nil_of_mem hv)
  | nan => simp [Pix.isFinite] at hfin
  | posInf => simp [Pix.isFinite] at hfin
  | negInf => simp [Pix.isFinite] at hfin

theorem validData_pos_of_check_false {band : List Pix} (hne : band ≠ [])
    (h : allMaskedCheck band = false) : 0 < (validData band).length := by
  cases hall : (band.all fun p => !p.isFinite) with
  | false => exact validData_pos_of_not_all_masked hall
  | true =>
    exfalso
    have hany : (band.any fun p => !p.isFinite) = false := by
      unfold allMaskedCheck at h
      rw [hall] at h
      simpa using h
    cases band with
    | nil => exact hne rfl
    | cons p t => simp_all [List.any_cons, List.all_cons]

/-- Claim C9 counterexample: at the zero-size band the shrunk mask makes the
all-masked check evaluate False (the check "passes"), yet the valid-sample
list is empty and the renderer's "No valid data" fallback branch is exactly
the result — the branch is reachable. -/
theorem no_valid_data_branch_reachable_on_empty :
    allMaskedCheck [] = false ∧ validData ([] : List Pix) = [] ∧
      renderBand "x.tif" "x.tif" [] =
        RenderResult.noValidData "  No valid data in x.tif to plot" := by
  decide

/-- Claim C9 (amended): for every non-empty band, whenever the all-masked
check passes the list of valid samples is non-empty, so the renderer's inner
"No valid data" fallback branch can never be the result; only the zero-size
band (where NumPy shrinks the mask to nomask and the check passes vacuously)
reaches that branch. -/
theorem no_valid_data_branch_unreachable (relPath name : String)
    (band : List Pix) (msg : String) (hne : band ≠ []) :
    renderBand relPath name band ≠ RenderResult.noValidData msg := by
  unfold renderBand
  cases hall : allMaskedCheck band with
  | true => simp
  | false =>
    have hpos := validData_pos_of_check_false hne hall
    simp [hpos]

/-- Claim C9 witness: the unreachability at a concrete non-empty band. -/
theorem no_valid_data_branch_unreachable_witness :
    ([Pix.fin 1, Pix.nan] : List Pix) ≠ [] ∧
      renderBand "a.tif" "a.tif" [Pix.fin 1, Pix.nan] ≠
        RenderResult.noValidData "  No valid data in a.tif to plot" :=
  ⟨by decide, no_valid_data_branch_unreachable "a.tif" "a.tif"
    [Pix.fin 1, Pix.nan] "  No valid data in a.tif to plot" (by decide)⟩

/-- Claim C2: when the clip step fails with the no-overlap ValueError, the
file's outcome is the distinguished skip outcome (not a generic error
outcome), a warning naming the file is logged, no output is produced for
that file, and the batch still processes every other file unchanged. -/
theorem no_overlap_skips_file (pre post : List FileModel) (f : FileModel)
    (ds : DatasetModel) (m : String)
    (hrel : f.relativeResult = .ok ()) (hmk : f.mkdirResult = .ok ())
    (hopen : f.openResult = .ok ds) (hrep : ds.reprojectResult = .ok ())
    (hclip : ds.clipResult = .error (.valueError m))
    (hm : strHasSub m noOverlapMsg = true) :
    (processFile f).1 = .skippedNoOverlap ∧
      ("  Warning: Mumbai region does not overlap with " ++ f.name) ∈
        (processFile f).2 ∧
      (∀ p, (processFile f).1 ≠ .written p) ∧
      processBatch (pre ++ f :: post) =
        processBatch pre ++ (f, processFile f) :: processBatch post := by
  have hpf : processFile f =
      (.skippedNoOverlap,
        ["Processing: " ++ f.relPath,
          "  Warning: Mumbai region does not overlap with " ++ f.name]) := by
    simp [processFile, hrel, hmk, hopen, hrep, hclip, innerHandler, hm]
  refine ⟨by simp [hpf], by simp [hpf], by simp [hpf], by simp [processBatch]⟩

/-- Claim C2 witness: the no-overlap skip at a concrete file between two
successful files. -/
theorem no_overlap_skips_file_witness :
    (processFile noOverlapFile).1 = .skippedNoOverlap ∧
      ("  Warning: Mumbai region does not overlap with " ++
          noOverlapFile.name) ∈ (processFile noOverlapFile).2 ∧
      (∀ p, (processFile noOverlapFile).1 ≠ .written p) ∧
      processBatch ([okFile] ++ noOverlapFile :: [okFile]) =
        processBatch [okFile] ++
          (noOverlapFile, processFile noOverlapFile) :: processBatch [okFile] :=
  no_overlap_skips_file [okFile] [okFile] noOverlapFile
    { okDataset with clipResult := .error (.valueError noOverlapMsg) }
    noOverlapMsg (by decide) (by decide) (by decide) (by decide) (by decide)
    (by decide)

theorem outer_error_logged (f : FileModel) (m : String)
    (h : (processFile f).1 = .outerError m) :
    ("  Error with file " ++ f.tifPath ++ ": " ++ m) ∈ (processFile f).2 := by
  unfold processFile at h ⊢
  rcases h1 : f.relativeResult with e | u <;> simp only [h1] at h ⊢
  · simp_all [PyErr.msg]
  · rcases h2 : f.mkdirResult with e | u2 <;> simp only [h2] at h ⊢
    · simp_all [PyErr.msg]
    · rcases h3 : f.openResult with e | ds <;> simp only [h3] at h ⊢
      · simp_all [PyErr.msg]
      · rcases h4 : ds.reprojectResult with e | u3 <;> simp only [h4] at h ⊢
        · simp_all [PyErr.msg]
        · rcases h5 : ds.clipResult with e | clip <;> simp only [h5] at h ⊢
          · rcases e with m2 | m2
            · by_cases hov : strHasSub m2 noOverlapMsg = true <;>
                simp_all [innerHandler]
            · simp_all
          · rcases h6 : ds.writeResult with e | u4 <;> simp only [h6] at h ⊢
            · rcases e with m2 | m2
              · by_cases hov : strHasSub m2 noOverlapMsg = true <;>
                  simp_all [innerHandler]
              · simp_all
            · simp_all

theorem inner_error_logged (f : FileModel) (m : String)
    (h : (processFile f).1 = .innerError m) :
    ("  Error processing " ++ f.name ++ ": " ++ m) ∈ (processFile f).2 := by
  unfold processFile at h ⊢
  rcases h1 : f.relativeResult with e | u <;> simp only [h1] at h ⊢
  · simp_all
  · rcases h2 : f.mkdirResult with e | u2 <;> simp only [h2] at h ⊢
    · simp_all
    · rcases h3 : f.openResult with e | ds <;> simp only [h3] at h ⊢
      · simp_all
      · rcases h4 : ds.reprojectResult with e | u3 <;> simp only [h4] at h ⊢
        · simp_all
        · rcases h5 : ds.clipResult with e | clip <;> simp only [h5] at h ⊢
          · rcases e with m2 | m2
            · by_cases hov : strHasSub m2 noOverlapMsg = true <;>
                simp_all [innerHandler]
            · simp_all
          · rcases h6 : ds.writeResult with e | u4 <;> simp only [h6] at h ⊢
            · rcases e with m2 | m2
              · by_cases hov : strHasSub m2 noOverlapMsg = true <;>
                  simp_all [innerHandler]
              · simp_all
            · simp_all

theorem written_mem_outputs {files : List FileModel} {g : FileModel}
    (hg : g ∈ files) {p : String} (hp : (processFile g).1 = .written p) :
    p ∈ writtenOutputs files := by
  unfold writtenOutputs
  exact List.mem_filterMap.mpr ⟨g, hg, by simp [hp]⟩

/-- Claim C4 counterexample: a generic `ValueError` during clipping on a
file in a subdirectory is logged with the file's basename only — no log
line contains the file's path. -/
theorem inner_error_logs_only_basename :
    (processFile badClipFile).1 = .innerError "boom" ∧
      (processFile badClipFile).2 =
        ["Processing: sub/a.tif", "  Error processing a.tif: boom"] ∧
      (∀ line ∈ (processFile badClipFile).2,
        strHasSub line badClipFile.tifPath = false) := by
  decide

/-- Claim C4 (amended): every file of a batch is attempted (one result per
file, in order, whatever each file does); an exception reaching the outer
handler is logged with the offending file's full path, while a non-overlap
`ValueError` from clip/normalize/write is logged with the file's basename;
and the batch's outputs include one for every file whose processing wrote
its raster — one bad file never aborts the batch. -/
theorem batch_resilience (pre post : List FileModel) (f : FileModel) :
    (processBatch (pre ++ f :: post)).length = pre.length + post.length + 1 ∧
      processBatch (pre ++ f :: post) =
        processBatch pre ++ (f, processFile f) :: processBatch post ∧
      (∀ m, (processFile f).1 = .outerError m →
        ("  Error with file " ++ f.tifPath ++ ": " ++ m) ∈
          (processFile f).2) ∧
      (∀ m, (processFile f).1 = .innerError m →
        ("  Error processing " ++ f.name ++ ": " ++ m) ∈
          (processFile f).2) ∧
      (∀ g ∈ pre ++ f :: post, ∀ p, (processFile g).1 = .written p →
        p ∈ writtenOutputs (pre ++ f :: post)) := by
  refine ⟨?_, ?_, ?_, ?_, ?_⟩
  · simp [processBatch]
    omega
  · simp [processBatch]
  · exact fun m => outer_error_logged f m
  · exact fun m => inner_error_logged f m
  · exact fun g hg p hp => written_mem_outputs hg hp

/-- Claim C4 witness: a batch of three files whose middle file fails with a
generic ValueError still has three results and an output for each healthy
file. -/
theorem batch_resilience_witness :
    (processBatch ([okFile] ++ badClipFile :: [okFile])).length =
        [okFile].length + [okFile].length + 1 ∧
      ("  Error processing " ++ badClipFile.name ++ ": " ++ "boom") ∈
        (processFile badClipFile).2 ∧
      okFile.outPath ∈ writtenOutputs ([okFile] ++ badClipFile :: [okFile]) :=
  ⟨(batch_resilience [okFile] [okFile] badClipFile).1,
    (batch_resilience [okFile] [okFile] badClipFile).2.2.2.1 "boom"
      (by decide),
    (batch_resilience [okFile] [okFile] badClipFile).2.2.2.2 okFile
      (by decide) okFile.outPath (by decide)⟩

/-- Claim C10: `clip_raster_with_boundary` is a total boolean function of
its environment — true exactly when the clipped raster was written (the
pipeline ran to completion), false exactly when some internal step raised —
so no exception ever propagates to its caller. -/
theorem clip_raster_with_boundary_total (env : ClipBoundaryEnv) :
    (clip_raster_with_boundary env = true ↔
        ∃ m, clipBoundaryPipeline env = .ok m) ∧
      (clip_raster_with_boundary env = false ↔
        ∃ e, clipBoundaryPipeline env = .error e) := by
  unfold clip_raster_with_boundary
  rcases h : clipBoundaryPipeline env with e | m <;> simp
